import Mathlib

/-!
Verification development for the media download server in src/server.js.

The server exposes two routes, POST /info and POST /download. Both invoke
the external yt-dlp tool, and /download additionally manages temporary
files, optional ID3 tag embedding and a streamed response. The
definitions below are a shallow embedding of that code: external effects
(child process exit, file system checks, thumbnail fetch, tag write) are
passed in as explicit parameters, and the handlers become pure functions
of the request body and those effect results.
-/

namespace Server

/-- JavaScript truthiness of an optional string field read from a JSON
body: an absent field (undefined) and the empty string are both falsy. -/
def truthy : Option String → Bool
  | none => false
  | some s => !s.isEmpty

/-- The JavaScript expression a || b for an optional string a with
fallback b: the fallback is taken when a is undefined or empty. -/
def jsOr (a : Option String) (b : String) : String :=
  match a with
  | none => b
  | some s => if s.isEmpty then b else s

/-- execYtDlp (src/server.js lines 36-48). The promise accumulates stdout
and stderr; on the close event it rejects with Error(stderr or the
generic text when stderr is empty) whenever the exit code is nonzero, and
otherwise resolves with the accumulated stdout. The exit code, stdout and
stderr of the child process are parameters of the embedding. -/
def execYtDlp (exitCode : Int) (stdout stderr : String) : Except String String :=
  if exitCode ≠ 0 then
    Except.error (if stderr.isEmpty then "yt-dlp failed" else stderr)
  else
    Except.ok stdout

/-- The character class [a-zA-Z0-9] of the regex at line 117. -/
def jsAlnum (c : Char) : Bool :=
  ('a' ≤ c && c ≤ 'z') || ('A' ≤ c && c ≤ 'Z') || ('0' ≤ c && c ≤ '9')

/-- Title sanitization (line 117): info.title.replace with the global
regex [^a-zA-Z0-9] and replacement string "_": every character outside
the class is replaced by an underscore. -/
def sanitizeTitle (s : String) : String :=
  String.mk (s.data.map (fun c => if jsAlnum c then c else '_'))

/-- The fields of the parsed yt-dlp --dump-json output that server.js
reads. Each is optional: the JSON object need not contain it. -/
structure RawInfo where
  title : Option String
  thumbnail : Option String
  uploader : Option String
  artist : Option String
deriving DecidableEq

/-- The artist fallback chain, appearing at line 79 of /info (without a
request override) and at line 133 of /download (with one):
artist || info.uploader || info.artist || the fixed sentinel. -/
def tagArtist (requestArtist uploader metaArtist : Option String) : String :=
  jsOr requestArtist (jsOr uploader (jsOr metaArtist "Unknown Artist"))

/-- The message of the Error thrown at line 74 when title or thumbnail is
missing from the parsed metadata. -/
def metadataIncompleteMessage : String := "មិនអាចទាញ metadata បាន!"

/-- The 400 message of /info (line 68). -/
def missingUrlMessage : String := "URL មិនត្រូវបានផ្តល់!"

/-- The 400 message of /download (line 90). -/
def missingUrlOrFormatMessage : String := "URL ឬ format មិនត្រូវបានផ្តល់!"

/-- The head of every /info 500 message (line 83). -/
def infoErrorHead : String := "មិនអាចទាញព័ត៌មានបាន: "

/-- Outcome of the /info route, as seen by the client. -/
inductive InfoResult where
  | badRequest (message : String)
  | ok (title thumbnail artistField : String)
  | serverError (message : String)
deriving DecidableEq

/-- app.post /info (lines 65-85). The dump parameter is the combined
result of awaiting execYtDlp with --dump-json and JSON.parse: an error
value carries the message of whichever of the two threw. A missing or
empty title or thumbnail raises the domain-specific metadata message;
the catch block wraps every raised message the same way. -/
def infoHandler (url : Option String) (dump : Except String RawInfo) : InfoResult :=
  if !truthy url then
    InfoResult.badRequest missingUrlMessage
  else
    match dump with
    | Except.error e => InfoResult.serverError (infoErrorHead ++ e)
    | Except.ok info =>
      if !truthy info.title || !truthy info.thumbnail then
        InfoResult.serverError (infoErrorHead ++ metadataIncompleteMessage)
      else
        InfoResult.ok (info.title.getD "") (info.thumbnail.getD "")
          (tagArtist none info.uploader info.artist)

/-- The tags object built at lines 131-135 of the audio branch. -/
structure TagSet where
  title : String
  artist : String
  image : String
deriving DecidableEq

/-- Which extraction branch of /download ran: the mp3 comparison at line
122 selects the audio branch, everything else the video branch. -/
inductive Branch where
  | audio
  | video
deriving DecidableEq

/-- How far the /download handler got before handing off or failing.
catchCrashed records the message of the value raised inside the try
block; the catch block itself then raises a ReferenceError (see
downloadCatch), so the recorded message is never sent to the client. -/
inductive DlPhase1 where
  | badRequest (message : String)
  | catchCrashed (raised : String)
  | streaming (branch : Branch) (filePath thumbnailPath contentType contentDisposition : String)
      (tags : Option TagSet) (tagWriteOk : Bool)
deriving DecidableEq

/-- The external effects one /download request observes: the combined
execYtDlp --dump-json and JSON.parse result, the two uuidv4 values, the
exit code and captured output of the second yt-dlp invocation (audio or
video extraction), whether fs.access finds the extracted file, the
downloadThumbnail outcome, and the NodeID3.write return value. -/
structure DlEnv where
  dumpJson : Except String RawInfo
  uuid1 : String
  uuid2 : String
  extractExit : Int
  extractStdout : String
  extractStderr : String
  fileWritten : Bool
  thumbFetch : Except String Unit
  tagWriteOk : Bool

/-- Result of the /download handler body: how far it got, which temp
files exist on disk when it finished or crashed, whether the catch block
ran cleanup, whether the catch block sent a 500, and any exception that
escaped the async handler as an unhandled rejection. -/
structure DownloadResult where
  outcome : DlPhase1
  tempFiles : List String
  cleanupRan : Bool
  errorResponseSent : Bool
  uncaught : Option String
deriving DecidableEq

/-- The managed temp directory created at startup (line 13). -/
def tempDirPath : String := "temp"

/-- path.join for the two-segment calls in server.js. -/
def pathJoin (dir file : String) : String := dir ++ "/" ++ file

/-- Message of the TypeError raised at line 117 when info.title is
undefined: calling a method of undefined raises a generic TypeError, not
a domain message. -/
def titleUndefinedTypeError : String := "TypeError: Cannot read properties of undefined"

/-- Message standing for the rejection of fs.access at line 125 or 163
when the extracted file does not exist. -/
def accessErrorMessage : String := "ENOENT: no such file or directory"

/-- Message of the ReferenceError raised inside the catch block at line
187 (see downloadCatch). -/
def referenceErrorMessage : String := "ReferenceError: filePath is not defined"

/-- The catch handler of app.post /download (lines 185-189). It logs,
then evaluates cleanup([filePath, thumbnailPath]) and sendError. But
filePath and thumbnailPath are declared with const inside the try block
(lines 119-120); block scoping makes them invisible to the catch block
and no enclosing scope declares them, so building the argument array
raises a ReferenceError first: cleanup never runs, sendError never runs,
no response is sent, and the async handler rejects. -/
def downloadCatch (raised : String) (tempFiles : List String) : DownloadResult :=
  { outcome := DlPhase1.catchCrashed raised
    tempFiles := tempFiles
    cleanupRan := false
    errorResponseSent := false
    uncaught := some referenceErrorMessage }

/-- The /download handler from entry up to stream.pipe(res)
(lines 87-184): validation, metadata dump, filename construction,
branch-specific extraction, audio-only thumbnail fetch and tag build,
and the headers of the streamed response. The stream-phase event
handling that follows pipe is modelled separately by stepEvent. -/
def downloadRequest (url format artist : Option String) (env : DlEnv) : DownloadResult :=
  if !truthy url || !truthy format then
    { outcome := DlPhase1.badRequest missingUrlOrFormatMessage
      tempFiles := []
      cleanupRan := false
      errorResponseSent := false
      uncaught := none }
  else
    match env.dumpJson with
    | Except.error e => downloadCatch e []
    | Except.ok info =>
      match info.title with
      | none => downloadCatch titleUndefinedTypeError []
      | some rawTitle =>
        let title := sanitizeTitle rawTitle
        let fmt := format.getD ""
        let fileName := title ++ "_" ++ env.uuid1 ++ "." ++ fmt
        let filePath := pathJoin tempDirPath fileName
        let thumbnailPath := pathJoin tempDirPath (title ++ "_" ++ env.uuid2 ++ ".jpg")
        if fmt = "mp3" then
          match execYtDlp env.extractExit env.extractStdout env.extractStderr with
          | Except.error e => downloadCatch e []
          | Except.ok _ =>
            if !env.fileWritten then downloadCatch accessErrorMessage []
            else
              match env.thumbFetch with
              | Except.error e => downloadCatch e [filePath]
              | Except.ok _ =>
                { outcome := DlPhase1.streaming Branch.audio filePath thumbnailPath
                    "audio/mpeg" ("attachment; filename=\"" ++ title ++ ".mp3\"")
                    (some { title := rawTitle
                            artist := tagArtist artist info.uploader info.artist
                            image := thumbnailPath })
                    env.tagWriteOk
                  tempFiles := [filePath, thumbnailPath]
                  cleanupRan := false
                  errorResponseSent := false
                  uncaught := none }
        else
          match execYtDlp env.extractExit env.extractStdout env.extractStderr with
          | Except.error e => downloadCatch e []
          | Except.ok _ =>
            if !env.fileWritten then downloadCatch accessErrorMessage []
            else
              { outcome := DlPhase1.streaming Branch.video filePath thumbnailPath
                  "video/mp4" ("attachment; filename=\"" ++ title ++ ".mp4\"")
                  none true
                tempFiles := [filePath]
                cleanupRan := false
                errorResponseSent := false
                uncaught := none }

/-- The completion triggers observed after stream.pipe(res): a data
chunk flowing to the client (which flushes the 200 status line and
headers if they were not sent yet), the stream error event, the stream
end event, and the close event of the response. Per Node semantics the
response close event fires both when the response finishes normally and
when the underlying connection terminates early, so one request can fire
several of these triggers. -/
inductive StreamEvent where
  | data
  | streamError
  | streamEnd
  | resClose
deriving DecidableEq

/-- Observable state of one /download response during the stream phase:
the responded flag of lines 93-99, whether the status line and headers
have been flushed, the status code actually on the wire, how many times
cleanup has been invoked, and how many 500 bodies actually reached the
client. -/
structure StreamState where
  responded : Bool
  headersSent : Bool
  statusOnWire : Option Nat
  cleanupCount : Nat
  errorResponsesSent : Nat
deriving DecidableEq

/-- State at stream.pipe(res): nothing sent, nothing cleaned. -/
def initStreamState : StreamState :=
  { responded := false
    headersSent := false
    statusOnWire := none
    cleanupCount := 0
    errorResponsesSent := 0 }

/-- sendError (lines 93-99): a one-shot guard on the responded flag.
When the guard passes but headers were already flushed, res.json throws
and the wire keeps the status already sent; only when headers were not
yet sent does a 500 actually reach the client. -/
def sendError (s : StreamState) : StreamState :=
  if s.responded then s
  else if s.headersSent then { s with responded := true }
  else
    { s with responded := true
             headersSent := true
             statusOnWire := some 500
             errorResponsesSent := s.errorResponsesSent + 1 }

/-- One trigger firing, following the handlers registered at lines
144-159 (audio) and 168-183 (video): the error handler awaits cleanup
then calls sendError; the end handler awaits cleanup then leaves the
responded flag true; the close handler only awaits cleanup; a flowing
data chunk flushes the 200 response head if nothing was sent yet. -/
def stepEvent (s : StreamState) : StreamEvent → StreamState
  | StreamEvent.data =>
    if s.headersSent then s
    else { s with headersSent := true, statusOnWire := some 200 }
  | StreamEvent.streamError =>
    sendError { s with cleanupCount := s.cleanupCount + 1 }
  | StreamEvent.streamEnd =>
    { s with cleanupCount := s.cleanupCount + 1, responded := true }
  | StreamEvent.resClose =>
    { s with cleanupCount := s.cleanupCount + 1 }

/-- The stream phase of one request: the sequence of fired triggers,
folded over the handler bodies. -/
def runStream (events : List StreamEvent) : StreamState :=
  events.foldl stepEvent initStreamState

/-- The three registered handlers that invoke cleanup; a data chunk does
not. -/
def isCleanupTrigger : StreamEvent → Bool
  | StreamEvent.data => false
  | _ => true

lemma sendError_cleanupCount (s : StreamState) :
    (sendError s).cleanupCount = s.cleanupCount := by
  unfold sendError
  split
  · rfl
  · split <;> rfl

lemma stepEvent_cleanupCount (s : StreamState) (e : StreamEvent) :
    (stepEvent s e).cleanupCount =
      s.cleanupCount + (if isCleanupTrigger e then 1 else 0) := by
  cases e with
  | data =>
    simp only [stepEvent, isCleanupTrigger, if_neg Bool.false_ne_true, Nat.add_zero]
    split <;> rfl
  | streamError => simp [stepEvent, isCleanupTrigger, sendError_cleanupCount]
  | streamEnd => simp [stepEvent, isCleanupTrigger]
  | resClose => simp [stepEvent, isCleanupTrigger]

lemma foldl_cleanupCount (events : List StreamEvent) :
    ∀ s : StreamState,
      (events.foldl stepEvent s).cleanupCount =
        s.cleanupCount + events.countP isCleanupTrigger := by
  induction events with
  | nil => intro s; simp
  | cons e es ih =>
    intro s
    rw [List.foldl_cons, List.countP_cons, ih (stepEvent s e), stepEvent_cleanupCount]
    cases he : isCleanupTrigger e with
    | false => simp
    | true => simp; omega

/-- The invariant maintained by every trigger: the number of 500 bodies
on the wire is zero while the responded guard is down and at most one
ever, and a status code on the wire implies headers were flushed. -/
def StreamInv (s : StreamState) : Prop :=
  s.errorResponsesSent ≤ (if s.responded then 1 else 0) ∧
    (s.statusOnWire.isSome → s.headersSent = true)

lemma stepEvent_inv (s : StreamState) (e : StreamEvent) (h : StreamInv s) :
    StreamInv (stepEvent s e) ∧
      ∀ c, s.statusOnWire = some c → (stepEvent s e).statusOnWire = some c := by
  obtain ⟨h1, h2⟩ := h
  cases e with
  | data =>
    cases hh : s.headersSent with
    | true => exact ⟨⟨by simpa [stepEvent, hh] using h1, by simp [stepEvent, hh, h2]⟩,
        by simp [stepEvent, hh]⟩
    | false =>
      have hnone : s.statusOnWire = none := by
        cases hw : s.statusOnWire with
        | none => rfl
        | some c => exact absurd (h2 (by simp [hw])) (by simp [hh])
      refine ⟨⟨?_, ?_⟩, ?_⟩
      · simpa [stepEvent, hh] using h1
      · simp [stepEvent, hh]
      · intro c hc
        rw [hnone] at hc
        exact absurd hc (by simp)
  | streamError =>
    cases hr : s.responded with
    | true =>
      constructor
      · constructor
        · simpa [stepEvent, sendError, hr] using h1
        · simpa [stepEvent, sendError, hr] using h2
      · intro c hc; simpa [stepEvent, sendError, hr] using hc
    | false =>
      have hz : s.errorResponsesSent = 0 := by
        rw [hr] at h1; simpa using h1
      cases hh : s.headersSent with
      | true =>
        constructor
        · constructor
          · simp [stepEvent, sendError, hr, hh, hz]
          · simp [stepEvent, sendError, hr, hh]
        · intro c hc; simpa [stepEvent, sendError, hr, hh] using hc
      | false =>
        have hnone : s.statusOnWire = none := by
          cases hw : s.statusOnWire with
          | none => rfl
          | some c => exact absurd (h2 (by simp [hw])) (by simp [hh])
        constructor
        · constructor
          · simp [stepEvent, sendError, hr, hh, hz]
          · simp [stepEvent, sendError, hr, hh]
        · intro c hc
          rw [hnone] at hc
          exact absurd hc (by simp)
  | streamEnd =>
    constructor
    · constructor
      · have h1b : s.errorResponsesSent ≤ 1 := by
          cases hr : s.responded <;> rw [hr] at h1 <;> simp at h1 <;> omega
        simpa [stepEvent] using h1b
      · simpa [stepEvent] using h2
    · intro c hc; simpa [stepEvent] using hc
  | resClose =>
    constructor
    · constructor
      · simpa [stepEvent] using h1
      · simpa [stepEvent] using h2
    · intro c hc; simpa [stepEvent] using hc

lemma foldl_inv (events : List StreamEvent) :
    ∀ s : StreamState, StreamInv s →
      StreamInv (events.foldl stepEvent s) ∧
        ∀ c, s.statusOnWire = some c →
          (events.foldl stepEvent s).statusOnWire = some c := by
  induction events with
  | nil => exact fun s hs => ⟨hs, fun c hc => hc⟩
  | cons e es ih =>
    intro s hs
    obtain ⟨hinv, hpres⟩ := stepEvent_inv s e hs
    obtain ⟨hinv2, hpres2⟩ := ih (stepEvent s e) hinv
    exact ⟨hinv2, fun c hc => hpres2 c (hpres c hc)⟩

lemma streamInv_init : StreamInv initStreamState := by
  constructor <;> simp [initStreamState]

lemma jsOr_eq (a : Option String) (b : String) :
    jsOr a b = if truthy a then a.getD "" else b := by
  cases a with
  | none => simp [jsOr, truthy]
  | some s => by_cases hs : s.isEmpty <;> simp [jsOr, truthy, hs]

/-- Concrete metadata shared by the witness scenarios below. -/
def infoSong : RawInfo :=
  { title := some "Song"
    thumbnail := some "http://img"
    uploader := some "Uploader"
    artist := none }

/-- Effects of a fully successful request. -/
def envBase : DlEnv :=
  { dumpJson := Except.ok infoSong
    uuid1 := "u1"
    uuid2 := "u2"
    extractExit := 0
    extractStdout := ""
    extractStderr := ""
    fileWritten := true
    thumbFetch := Except.ok ()
    tagWriteOk := true }

/-- Effects of a request whose tag embedding returns false. -/
def envTagFail : DlEnv :=
  { envBase with tagWriteOk := false }

/-- Effects of a request whose extraction invocation exits nonzero after
a successful metadata dump. -/
def envExtractFail : DlEnv :=
  { envBase with
      extractExit := 1
      extractStderr := "ERROR: unable to download video"
      fileWritten := false }

/-- Effects of a request whose metadata dump parses but has no title. -/
def envNoTitle : DlEnv :=
  { envBase with
      dumpJson := Except.ok
        { title := none, thumbnail := some "http://img", uploader := none, artist := none } }

/-- C8: the process executor resolves with the accumulated stdout
exactly when the exit code is zero; any nonzero exit rejects with the
captured stderr, or with the generic failure text when stderr is
empty. -/
theorem execYtDlp_exit_contract (code : Int) (out err : String) :
    (execYtDlp code out err = Except.ok out ↔ code = 0) ∧
      (code ≠ 0 → execYtDlp code out err =
        Except.error (if err.isEmpty then "yt-dlp failed" else err)) := by
  refine ⟨⟨fun h => ?_, fun h => by simp [execYtDlp, h]⟩, fun h => by simp [execYtDlp, h]⟩
  by_contra hc
  simp [execYtDlp, hc] at h

/-- C8 witness: exit 1 with empty stderr rejects with the generic text;
exit 0 resolves with the stdout dump. -/
theorem execYtDlp_exit_contract_witness :
    execYtDlp 1 "dump" "" = Except.error "yt-dlp failed" ∧
      execYtDlp 0 "dump" "oops" = Except.ok "dump" := by
  refine ⟨?_, (execYtDlp_exit_contract 0 "dump" "oops").1.2 rfl⟩
  have h := (execYtDlp_exit_contract 1 "dump" "").2 (by decide)
  simpa using h

/-- C7: the artist written into the tag set follows the precedence chain
request override, then uploader, then metadata artist, then the fixed
sentinel, where a field counts as present when it is a non-empty
string. -/
theorem tagArtist_precedence (requestArtist uploader metaArtist : Option String) :
    tagArtist requestArtist uploader metaArtist =
      if truthy requestArtist then requestArtist.getD ""
      else if truthy uploader then uploader.getD ""
      else if truthy metaArtist then metaArtist.getD ""
      else "Unknown Artist" := by
  rw [tagArtist, jsOr_eq, jsOr_eq, jsOr_eq]

/-- C6 counterexample: sanitizing the title a b yields a_b, which
contains the underscore, a non-alphanumeric character, so the sanitized
name does not consist of alphanumeric characters only. -/
theorem sanitizeTitle_not_alnum_only :
    sanitizeTitle "a b" = "a_b" ∧ '_' ∈ (sanitizeTitle "a b").data ∧ jsAlnum '_' = false := by
  decide

/-- C6 amended: every character of the sanitized title is alphanumeric
or an underscore: the sanitizer replaces each non-alphanumeric character
of the source title with an underscore rather than removing it. -/
theorem sanitizeTitle_alnum_or_underscore (s : String) (c : Char)
    (h : c ∈ (sanitizeTitle s).data) : jsAlnum c = true ∨ c = '_' := by
  have h2 : c ∈ s.data.map (fun a => if jsAlnum a then a else '_') := h
  obtain ⟨a, _, rfl⟩ := List.mem_map.mp h2
  by_cases ha : jsAlnum a
  · left; simp [ha]
  · right; simp [ha]

/-- C6 witness: applied to the title a b at its underscore character. -/
theorem sanitizeTitle_alnum_or_underscore_witness :
    '_' ∈ (sanitizeTitle "a b").data ∧ (jsAlnum '_' = true ∨ '_' = '_') :=
  ⟨by decide, sanitizeTitle_alnum_or_underscore "a b" '_' (by decide)⟩

/-- C2 counterexample: on a normal completion both the stream end
handler and the response close handler fire, so cleanup is invoked twice
for that request, not exactly once. -/
theorem cleanup_not_exactly_once :
    (runStream [StreamEvent.data, StreamEvent.streamEnd, StreamEvent.resClose]).cleanupCount
      ≠ 1 := by
  decide

/-- C2 amended: cleanup is invoked once per fired completion trigger:
the end, error and close handlers each call it, so a terminal path that
fires several triggers (a normal completion fires both end and close)
runs cleanup several times; the existence check inside cleanup makes the
repetition harmless. -/
theorem cleanup_once_per_trigger (events : List StreamEvent) :
    (runStream events).cleanupCount = events.countP isCleanupTrigger := by
  simpa [runStream, initStreamState] using foldl_cleanupCount events initStreamState

/-- C3: across every sequence of completion triggers at most one 500
body ever reaches the client, and once a status code is on the wire no
later trigger changes it. -/
theorem single_visible_error_response (events : List StreamEvent) :
    (runStream events).errorResponsesSent ≤ 1 ∧
      ∀ c more, (runStream events).statusOnWire = some c →
        (runStream (events ++ more)).statusOnWire = some c := by
  have hmain := foldl_inv events initStreamState streamInv_init
  constructor
  · have h1 := hmain.1.1
    simp only [runStream]
    cases hr : (events.foldl stepEvent initStreamState).responded <;>
      rw [hr] at h1 <;> simp at h1 <;> omega
  · intro c more hc
    have h2 := foldl_inv more (events.foldl stepEvent initStreamState) hmain.1
    simp only [runStream, List.foldl_append]
    simp only [runStream] at hc
    exact h2.2 c hc

/-- C3 witness: a data chunk puts 200 on the wire; a later stream error
and close leave the status unchanged and at most one error body sent. -/
theorem single_visible_error_response_witness :
    (runStream [StreamEvent.data]).errorResponsesSent ≤ 1 ∧
      (runStream ([StreamEvent.data] ++ [StreamEvent.streamError, StreamEvent.resClose])).statusOnWire
        = some 200 :=
  ⟨(single_visible_error_response [StreamEvent.data]).1,
    (single_visible_error_response [StreamEvent.data]).2 200
      [StreamEvent.streamError, StreamEvent.resClose] (by decide)⟩

/-- C9: a /download request missing url or format gets the 400 message
before any temp file exists, and an /info request missing url likewise
gets its 400 message. -/
theorem validation_short_circuits (url format artist : Option String) (env : DlEnv)
    (dump : Except String RawInfo)
    (h : truthy url = false ∨ truthy format = false) :
    (downloadRequest url format artist env).outcome =
        DlPhase1.badRequest missingUrlOrFormatMessage ∧
      (downloadRequest url format artist env).tempFiles = [] ∧
      (truthy url = false →
        infoHandler url dump = InfoResult.badRequest missingUrlMessage) := by
  have hcond : (!truthy url || !truthy format) = true := by
    rcases h with h | h <;> simp [h]
  refine ⟨?_, ?_, fun hu => ?_⟩
  · simp [downloadRequest, hcond]
  · simp [downloadRequest, hcond]
  · simp [infoHandler, hu]

/-- C9 witness: a /download body without url and an /info body without
url. -/
theorem validation_short_circuits_witness :
    (downloadRequest none (some "mp3") none envBase).outcome =
        DlPhase1.badRequest missingUrlOrFormatMessage ∧
      (downloadRequest none (some "mp3") none envBase).tempFiles = [] ∧
      infoHandler none (Except.error "x") = InfoResult.badRequest missingUrlMessage := by
  obtain ⟨h1, h2, h3⟩ :=
    validation_short_circuits none (some "mp3") none envBase (Except.error "x") (Or.inl rfl)
  exact ⟨h1, h2, h3 rfl⟩

/-- C4: on the audio branch a false NodeID3.write result does not change
the pipeline outcome: the request still reaches streaming with the
success headers, delivering the untagged file. -/
theorem tag_failure_nonfatal (url artistReq : Option String) (env : DlEnv)
    (info : RawInfo) (t : String)
    (hu : truthy url = true)
    (hd : env.dumpJson = Except.ok info)
    (ht : info.title = some t)
    (hx : env.extractExit = 0)
    (hw : env.fileWritten = true)
    (hf : env.thumbFetch = Except.ok ())
    (htag : env.tagWriteOk = false) :
    (downloadRequest url (some "mp3") artistReq env).outcome =
      DlPhase1.streaming Branch.audio
        (pathJoin tempDirPath (sanitizeTitle t ++ "_" ++ env.uuid1 ++ "." ++ "mp3"))
        (pathJoin tempDirPath (sanitizeTitle t ++ "_" ++ env.uuid2 ++ ".jpg"))
        "audio/mpeg" ("attachment; filename=\"" ++ sanitizeTitle t ++ ".mp3\"")
        (some { title := t
                artist := tagArtist artistReq info.uploader info.artist
                image := pathJoin tempDirPath (sanitizeTitle t ++ "_" ++ env.uuid2 ++ ".jpg") })
        false := by
  obtain ⟨dj, u1, u2, ex, exo, exs, fw, tf, tw⟩ := env
  simp only at hd hx hw hf htag
  subst hd hx hw hf htag
  obtain ⟨ti, th, up, ar⟩ := info
  simp only at ht
  subst ht
  have hm : truthy (some "mp3") = true := by decide
  simp [downloadRequest, hu, hm, execYtDlp]

/-- C4 witness: tag writing fails, yet the outcome is the audio
streaming state with the success headers. -/
theorem tag_failure_nonfatal_witness :
    (downloadRequest (some "https://example.com/v") (some "mp3") none envTagFail).outcome =
      DlPhase1.streaming Branch.audio
        (pathJoin tempDirPath (sanitizeTitle "Song" ++ "_" ++ envTagFail.uuid1 ++ "." ++ "mp3"))
        (pathJoin tempDirPath (sanitizeTitle "Song" ++ "_" ++ envTagFail.uuid2 ++ ".jpg"))
        "audio/mpeg" ("attachment; filename=\"" ++ sanitizeTitle "Song" ++ ".mp3\"")
        (some { title := "Song"
                artist := tagArtist none infoSong.uploader infoSong.artist
                image := pathJoin tempDirPath (sanitizeTitle "Song" ++ "_" ++ envTagFail.uuid2 ++ ".jpg") })
        false :=
  tag_failure_nonfatal (some "https://example.com/v") none envTagFail infoSong "Song"
    (by decide) rfl rfl rfl rfl rfl rfl

/-- C1: when extraction exits nonzero after successful metadata
resolution, the catch block raises a ReferenceError while building the
cleanup argument array, so cleanup never runs on the temp paths and no
500 is ever sent: the async handler rejects with an unhandled
ReferenceError instead. -/
theorem extraction_failure_catch_crashes :
    (downloadRequest (some "https://example.com/v") (some "mp3") none envExtractFail).outcome =
        DlPhase1.catchCrashed "ERROR: unable to download video" ∧
      (downloadRequest (some "https://example.com/v") (some "mp3") none envExtractFail).cleanupRan
        = false ∧
      (downloadRequest (some "https://example.com/v") (some "mp3") none envExtractFail).errorResponseSent
        = false ∧
      (downloadRequest (some "https://example.com/v") (some "mp3") none envExtractFail).uncaught
        = some referenceErrorMessage :=
  ⟨rfl, rfl, rfl, rfl⟩

/-- C5 counterexample: the /download route never validates the resolved
metadata: a missing title is consumed by the filename construction and
raises a generic TypeError, which is not the domain-specific metadata
message. -/
theorem download_missing_title_generic :
    (downloadRequest (some "https://example.com/v") (some "mp3") none envNoTitle).outcome =
        DlPhase1.catchCrashed titleUndefinedTypeError ∧
      titleUndefinedTypeError ≠ metadataIncompleteMessage :=
  ⟨rfl, by decide⟩

/-- C5 amended: only the /info route validates the resolved metadata: a
missing or empty title or thumbnail yields the fixed domain-specific
metadata message, while a tool or parse failure yields the raised
message instead, so the two are distinguishable; the /download route
performs no such validation. -/
theorem info_metadata_validation (url : Option String) (info : RawInfo) (e : String)
    (hu : truthy url = true) :
    ((truthy info.title = false ∨ truthy info.thumbnail = false) →
        infoHandler url (Except.ok info) =
          InfoResult.serverError (infoErrorHead ++ metadataIncompleteMessage)) ∧
      infoHandler url (Except.error e) =
        InfoResult.serverError (infoErrorHead ++ e) := by
  constructor
  · intro h
    have hcond : (!truthy info.title || !truthy info.thumbnail) = true := by
      rcases h with h | h <;> simp [h]
    simp [infoHandler, hu, hcond]
  · simp [infoHandler, hu]

/-- C5 witness: a metadata object without title yields the metadata
message; a tool failure yields its stderr text. -/
theorem info_metadata_validation_witness :
    infoHandler (some "https://example.com/v")
        (Except.ok { title := none, thumbnail := some "http://img",
                     uploader := none, artist := none }) =
      InfoResult.serverError (infoErrorHead ++ metadataIncompleteMessage) ∧
    infoHandler (some "https://example.com/v") (Except.error "boom") =
      InfoResult.serverError (infoErrorHead ++ "boom") := by
  obtain ⟨h1, h2⟩ := info_metadata_validation (some "https://example.com/v")
    { title := none, thumbnail := some "http://img", uploader := none, artist := none }
    "boom" (by decide)
  exact ⟨h1 (Or.inl rfl), h2⟩

/-- C10: a /download request that reaches streaming takes the audio
branch exactly when format is the string mp3; any other format takes the
video branch with the video/mp4 content type and an mp4 attachment
filename, while the raw client-supplied format string is used verbatim
as the extension of the temp file path. -/
theorem format_selects_branch (url artistReq : Option String) (f : String) (env : DlEnv)
    (b : Branch) (fp tp ct dn : String) (tags : Option TagSet) (tw : Bool)
    (h : (downloadRequest url (some f) artistReq env).outcome =
      DlPhase1.streaming b fp tp ct dn tags tw) :
    (b = Branch.audio ↔ f = "mp3") ∧
      (∃ q, fp = q ++ ("." ++ f)) ∧
      (f ≠ "mp3" → b = Branch.video ∧ ct = "video/mp4" ∧ ∃ p, dn = p ++ ".mp4\"") ∧
      (f = "mp3" → ct = "audio/mpeg" ∧ ∃ p, dn = p ++ ".mp3\"") := by
  obtain ⟨dj, u1, u2, ex, exo, exs, fw, tf, tw2⟩ := env
  unfold downloadRequest at h
  cases hcond : (!truthy url || !truthy (some f)) with
  | true => simp [hcond, downloadCatch] at h
  | false =>
    simp only [hcond, Bool.false_eq_true, if_false] at h
    cases dj with
    | error e => simp [downloadCatch] at h
    | ok info =>
      obtain ⟨ti, th, up, ar⟩ := info
      cases ti with
      | none => simp [downloadCatch] at h
      | some t =>
        simp only [Option.getD_some] at h
        by_cases hf3 : f = "mp3"
        · rw [if_pos hf3] at h
          cases hex : execYtDlp ex exo exs with
          | error e => rw [hex] at h; simp [downloadCatch] at h
          | ok o =>
            rw [hex] at h
            cases fw with
            | false => simp [downloadCatch] at h
            | true =>
              simp only [Bool.not_true, Bool.false_eq_true, if_false] at h
              cases tf with
              | error e => simp [downloadCatch] at h
              | ok u =>
                simp only [DlPhase1.streaming.injEq] at h
                obtain ⟨hb, hfp, htp, hct, hdn, htags, htw⟩ := h
                refine ⟨⟨fun _ => hf3, fun _ => hb.symm⟩, ?_, ?_, fun _ => ⟨hct.symm, ?_⟩⟩
                · refine ⟨(tempDirPath ++ "/") ++ ((sanitizeTitle t ++ "_") ++ u1), ?_⟩
                  rw [← hfp, hf3]
                  simp [pathJoin, String.append_assoc]
                · intro hne; exact absurd hf3 hne
                · refine ⟨"attachment; filename=\"" ++ sanitizeTitle t, ?_⟩
                  rw [← hdn]
        · rw [if_neg hf3] at h
          cases hex : execYtDlp ex exo exs with
          | error e => rw [hex] at h; simp [downloadCatch] at h
          | ok o =>
            rw [hex] at h
            cases fw with
            | false => simp [downloadCatch] at h
            | true =>
              simp only [Bool.not_true, Bool.false_eq_true, if_false] at h
              simp only [DlPhase1.streaming.injEq] at h
              obtain ⟨hb, hfp, htp, hct, hdn, htags, htw⟩ := h
              refine ⟨⟨fun hba => ?_, fun hm => absurd hm hf3⟩, ?_, fun _ => ⟨hb.symm, hct.symm, ?_⟩,
                fun hm => absurd hm hf3⟩
              · rw [← hb] at hba; exact absurd hba (by simp)
              · refine ⟨(tempDirPath ++ "/") ++ ((sanitizeTitle t ++ "_") ++ u1), ?_⟩
                rw [← hfp]
                simp [pathJoin, String.append_assoc]
              · refine ⟨"attachment; filename=\"" ++ sanitizeTitle t, ?_⟩
                rw [← hdn]

/-- C10 witness: format webm reaches streaming on the video branch with
the video/mp4 content type, an mp4 attachment name, and a temp path
whose extension is the verbatim string webm. -/
theorem format_selects_branch_witness :
    (Branch.video = Branch.audio ↔ "webm" = "mp3") ∧
      (∃ q, "temp/Song_u1.webm" = q ++ ("." ++ "webm")) ∧
      ("webm" ≠ "mp3" → Branch.video = Branch.video ∧ "video/mp4" = "video/mp4" ∧
        ∃ p, "attachment; filename=\"Song.mp4\"" = p ++ ".mp4\"") ∧
      ("webm" = "mp3" → "video/mp4" = "audio/mpeg" ∧
        ∃ p, "attachment; filename=\"Song.mp4\"" = p ++ ".mp3\"") :=
  format_selects_branch (some "https://example.com/v") none "webm" envBase Branch.video
    "temp/Song_u1.webm" "temp/Song_u2.jpg" "video/mp4" "attachment; filename=\"Song.mp4\""
    none true (by decide)

end Server
